import Mathlib

/-!
Verification of the signup form validation schema and submission workflow of
`apps/remix/app/components/forms/signup.tsx` (Documenso).

The development embeds:
* `ZSignUpFormSchema` — the zod validation schema (field rules, the `.trim()`
  transform on `name`, and the cross-field `.refine` on the password);
* `signupErrorMessages` and the `onFormSubmit` controller with its success
  path (navigate, toast, analytics capture) and its catch branch;
* the two submission entry points: the native `<form onSubmit>` handler and
  the Complete button's `form.handleSubmit` path;
* the Google/OIDC single-action handlers;
* a small state machine for the submission lifecycle (the
  `isSubmitting` flag and outstanding sign-up calls).
-/

namespace Signup

/-- JavaScript `haystack.includes(needle)`: substring containment, as used in
the cross-field refinement of `ZSignUpFormSchema`
(`password.includes(name)`, `password.includes(email.split('@')[0])`). -/
def jsIncludes (hay needle : String) : Bool :=
  decide (needle.data <:+: hay.data)

/-- JavaScript `String.prototype.trim`, the transform applied by
`z.string().trim()` to the `name` field: drops whitespace from both ends. -/
def jsTrim (s : String) : String :=
  ⟨(s.data.dropWhile Char.isWhitespace).rdropWhile Char.isWhitespace⟩

/-- JavaScript `email.split('@')[0]`: the text before the first `'@'`
(the whole string when there is no `'@'`). -/
def emailLocalPart (email : String) : String :=
  ⟨email.data.takeWhile (fun c => c != '@')⟩

/-- The signup form's field values (the input shape of `TSignUpFormSchema`);
`signature` is `z.string().optional()`. -/
structure SignupInput where
  name : String
  email : String
  password : String
  signature : Option String
deriving Repr, DecidableEq

/-- The form fields a validation error can be scoped to (zod issue paths). -/
inductive Field where
  | name
  | email
  | password
  | signature
deriving Repr, DecidableEq

/-- A field-scoped validation issue, as produced by the zod schema. -/
structure FieldError where
  field : Field
  message : String
deriving Repr, DecidableEq

/-- The two checks `ZSignUpFormSchema` delegates to collaborators outside this
component: zod's built-in email format check (`z.string().email()`) and the
password strength policy `ZPasswordSchema` (imported from
`@documenso/trpc/server/auth-router/schema`). `emailValid_empty` records the
single fact this development uses about the email checker: the empty string
is not a syntactically valid email (zod's email pattern requires an `'@'`
and a domain). -/
structure ExternalCheckers where
  emailValid : String → Bool
  passwordPolicy : String → Bool
  emailValid_empty : emailValid "" = false

/-- `msg`-id of the `name` rule: `Please enter a valid name.` -/
def nameRequiredMessage : String := "Please enter a valid name."

/-- zod's default message for a failed `.email()` check. -/
def invalidEmailMessage : String := "Invalid email"

/-- zod's default message for a failed `.min(1)` check on a string. -/
def emailMinMessage : String := "String must contain at least 1 character(s)"

/-- Stand-in for the messages owned by the external `ZPasswordSchema`; only
its field scoping (the `password` path) matters to this development. -/
def passwordPolicyMessage : String := "Password policy violation"

/-- `msg`-id of the cross-field refinement:
`Password should not be common or based on personal information`. -/
def crossFieldMessage : String := "Password should not be common or based on personal information"

/-- The field-level issues of the base `z.object({...})`, in field order:
`name: z.string().trim().min(1)` (the length check runs on the trimmed
value), `email: z.string().email().min(1)`, `password: ZPasswordSchema`,
`signature: z.string().optional()` (never fails on a present-or-absent
string). String checks are non-fatal in zod: each failing check adds its
issue and marks the parse dirty, but a value is still produced. -/
def signupBaseErrors (ext : ExternalCheckers) (i : SignupInput) : List FieldError :=
  (if 1 ≤ (jsTrim i.name).length then [] else [⟨Field.name, nameRequiredMessage⟩])
    ++ (if ext.emailValid i.email then [] else [⟨Field.email, invalidEmailMessage⟩])
    ++ (if 1 ≤ i.email.length then [] else [⟨Field.email, emailMinMessage⟩])
    ++ (if ext.passwordPolicy i.password then [] else [⟨Field.password, passwordPolicyMessage⟩])

/-- The predicate of the `.refine`: it receives the parsed object (with
`name` already trimmed) and requires
`!password.includes(name) && !password.includes(email.split('@')[0])`. -/
def signupRefineOk (i : SignupInput) : Bool :=
  !jsIncludes i.password (jsTrim i.name)
    && !jsIncludes i.password (emailLocalPart i.email)

/-- All issues of one run of `ZSignUpFormSchema`. Because every field value
here is a string, the base object parse never aborts (only non-fatal string
checks can fail), so zod always evaluates the `.refine` predicate on the
transformed data and appends its `password`-scoped issue when it fails. -/
def signupAllErrors (ext : ExternalCheckers) (i : SignupInput) : List FieldError :=
  signupBaseErrors ext i
    ++ (if signupRefineOk i then [] else [⟨Field.password, crossFieldMessage⟩])

/-- `ZSignUpFormSchema`: parse succeeds exactly when no issue was raised, and
the parsed output carries the trimmed `name` (the `.trim()` transform). -/
def validateSignup (ext : ExternalCheckers) (i : SignupInput) :
    Except (List FieldError) SignupInput :=
  if signupAllErrors ext i = [] then
    .ok { i with name := jsTrim i.name }
  else
    .error (signupAllErrors ext i)

/-- The issue list of a validation result (empty on success). -/
def validationErrors (r : Except (List FieldError) SignupInput) : List FieldError :=
  match r with
  | .error es => es
  | .ok _ => []

/-- Validation failed and at least one issue is scoped to `password`. -/
def failsOnPassword (r : Except (List FieldError) SignupInput) : Bool :=
  !r.isOk && (validationErrors r).any (fun e => e.field == Field.password)

/-- Outcome of awaiting `authClient.emailPassword.signUp`: success, or a
thrown error whose `AppError.parseError(err).code` is `code` (the
`AppErrorCode` constants from `@documenso/lib/errors/app-error` are modelled
by their string names). -/
inductive SignUpResult where
  | success
  | failure (code : String)
deriving Repr, DecidableEq

/-- The argument object of `authClient.emailPassword.signUp`. -/
structure SignUpPayload where
  name : String
  email : String
  password : String
  signature : Option String
deriving Repr, DecidableEq

/-- `signature: signature || null` — JavaScript `||` turns an empty or
absent signature string into `null`. -/
def jsOrNull (s : Option String) : Option String :=
  match s with
  | none => none
  | some t => if t = "" then none else some t

/-- The observable side effects issued by the form component, in order. -/
inductive Effect where
  | signUpCall (payload : SignUpPayload)
  | navigate (path : String)
  | toast (title : String) (description : String) (destructive : Bool)
  | analyticsCapture (event : String) (email : String) (timestamp : String)
      (utmSource : Option String)
  | displayValidationErrors
  | googleSignInCall
  | oidcSignInCall
deriving Repr, DecidableEq

/-- `msg` text for the `SIGNUP_DISABLED` entry of `signupErrorMessages`. -/
def signupsDisabledMessage : String := "Signups are disabled."

/-- `msg` text for the `ALREADY_EXISTS` entry of `signupErrorMessages`. -/
def alreadyExistsMessage : String :=
  "User with this email already exists. Please use a different email address."

/-- `msg` text for the `INVALID_REQUEST` entry of `signupErrorMessages`. -/
def invalidRequestMessage : String :=
  "We were unable to create your account. Please review the information you provided and try again."

/-- The static lookup table `signupErrorMessages`, keyed by the parsed
`AppError` code. -/
def signupErrorMessages (code : String) : Option String :=
  if code = "SIGNUP_DISABLED" then some signupsDisabledMessage
  else if code = "ALREADY_EXISTS" then some alreadyExistsMessage
  else if code = "INVALID_REQUEST" then some invalidRequestMessage
  else none

/-- Title of the success toast. -/
def registrationSuccessTitle : String := "Registration Successful"

/-- Description of the success toast. -/
def registrationSuccessMessage : String :=
  "You have successfully registered. Please verify your account by clicking on the link you received in the email."

/-- Title of the destructive toast shown in the catch branch. -/
def errorToastTitle : String := "An error occurred"

/-- Title of the destructive toast of the SSO handlers. -/
def unknownErrorTitle : String := "An unknown error occurred"

/-- Description of the destructive toast of the SSO handlers. -/
def unknownErrorMessage : String :=
  "We encountered an unknown error while attempting to sign you Up. Please try again later."

/-- `searchParams.get('utm_source') ?? null`, read once when the component
mounts (`URLSearchParams.get` returns the first matching parameter). -/
def utmFromQuery (searchParams : List (String × String)) : Option String :=
  match searchParams.find? (fun p => p.1 == "utm_source") with
  | some p => some p.2
  | none => none

/-- `onFormSubmit`: invokes
`authClient.emailPassword.signUp({name, email, password, signature: signature || null})`;
on success it awaits `navigate('/unverified-account')`, shows the success
toast, then captures the `App: User Sign Up` analytics event carrying the
email, `new Date().toISOString()` (the `nowISO` argument) and the
`utm_source` value read at mount (`utmSrc`). A thrown error is caught:
`AppError.parseError(err).code` is looked up in `signupErrorMessages`, the
lookup falls back to the `INVALID_REQUEST` message, and one destructive
toast is shown. -/
def onFormSubmit (v : SignupInput) (result : SignUpResult) (nowISO : String)
    (utmSrc : Option String) : List Effect :=
  let call := Effect.signUpCall ⟨v.name, v.email, v.password, jsOrNull v.signature⟩
  match result with
  | .success =>
      [call,
       .navigate "/unverified-account",
       .toast registrationSuccessTitle registrationSuccessMessage false,
       .analyticsCapture "App: User Sign Up" v.email nowISO utmSrc]
  | .failure code =>
      [call,
       .toast errorToastTitle ((signupErrorMessages code).getD invalidRequestMessage) true]

/-- The native `<form onSubmit>` handler: it checks `form.formState.isValid`
(the continuous zod validation of the current values); when valid it calls
`onFormSubmit(form.getValues())` with the raw field values (bypassing
`form.handleSubmit` and the resolver's transforms), otherwise it calls
`form.trigger()`, which re-runs validation and displays the errors. -/
def nativeFormSubmit (ext : ExternalCheckers) (values : SignupInput)
    (result : SignUpResult) (nowISO : String) (utmSrc : Option String) : List Effect :=
  if (validateSignup ext values).isOk then
    onFormSubmit values result nowISO utmSrc
  else
    [Effect.displayValidationErrors]

/-- The Complete button's `onClick`: `form.handleSubmit(onValid, onInvalid)()`
validates through the zod resolver; the valid callback receives the
resolver's parsed values (with `name` trimmed) and runs `onFormSubmit`; the
invalid callback leaves the field errors displayed. -/
def completeButtonSubmit (ext : ExternalCheckers) (values : SignupInput)
    (result : SignUpResult) (nowISO : String) (utmSrc : Option String) : List Effect :=
  match validateSignup ext values with
  | .ok parsed => onFormSubmit parsed result nowISO utmSrc
  | .error _ => [Effect.displayValidationErrors]

/-- `onSignUpWithGoogleClick`: one `authClient.google.signIn()` call; any
thrown error is caught and surfaced as the generic unknown-error toast.
The handler makes no reference to `validateSignup`. -/
def onSignUpWithGoogleClick (result : Except String Unit) : List Effect :=
  Effect.googleSignInCall ::
    (match result with
     | .ok _ => []
     | .error _ => [Effect.toast unknownErrorTitle unknownErrorMessage true])

/-- `onSignUpWithOIDCClick`: one `authClient.oidc.signIn()` call; any thrown
error is caught and surfaced as the generic unknown-error toast. The handler
makes no reference to `validateSignup`. -/
def onSignUpWithOIDCClick (result : Except String Unit) : List Effect :=
  Effect.oidcSignInCall ::
    (match result with
     | .ok _ => []
     | .error _ => [Effect.toast unknownErrorTitle unknownErrorMessage true])

/-- The submission-lifecycle state of one mounted form. `isSubmitting` is
react-hook-form's `formState.isSubmitting`, set only while a
`form.handleSubmit` invocation (the Complete button path) is outstanding;
the two counters track sign-up calls issued by each entry point that have
not yet settled, and `totalSignUpCalls` counts every
`authClient.emailPassword.signUp` invocation. -/
structure FormMachineState where
  isSubmitting : Bool
  outstandingButton : Nat
  outstandingNative : Nat
  totalSignUpCalls : Nat
deriving Repr, DecidableEq

/-- The state of a freshly mounted form. -/
def initialFormState : FormMachineState :=
  { isSubmitting := false, outstandingButton := 0, outstandingNative := 0,
    totalSignUpCalls := 0 }

/-- User-interface events relevant to the submission lifecycle: a click on
the Complete button, a native form submission (for example the Enter key),
and the settling of an outstanding sign-up attempt of either kind. -/
inductive UiEvent where
  | completeClick
  | nativeSubmit
  | buttonAttemptSettled
  | nativeAttemptSettled
deriving Repr, DecidableEq

/-- One lifecycle step. The Complete button has `disabled={isSubmitting}`,
so a click while submitting does nothing; on an enabled click,
`form.handleSubmit` validates and, when valid, sets `isSubmitting` and
issues the sign-up call. The native `<form onSubmit>` handler has no such
guard: it neither checks nor sets `isSubmitting` (it bypasses
`form.handleSubmit`), and issues the sign-up call whenever
`form.formState.isValid` holds. When a `handleSubmit` attempt settles,
react-hook-form clears `isSubmitting`. -/
def stepUi (valid : Bool) (ev : UiEvent) (s : FormMachineState) : FormMachineState :=
  match ev with
  | .completeClick =>
      if s.isSubmitting then s
      else if valid then
        { s with isSubmitting := true,
                 outstandingButton := s.outstandingButton + 1,
                 totalSignUpCalls := s.totalSignUpCalls + 1 }
      else s
  | .nativeSubmit =>
      if valid then
        { s with outstandingNative := s.outstandingNative + 1,
                 totalSignUpCalls := s.totalSignUpCalls + 1 }
      else s
  | .buttonAttemptSettled =>
      { s with isSubmitting := false, outstandingButton := s.outstandingButton - 1 }
  | .nativeAttemptSettled =>
      { s with outstandingNative := s.outstandingNative - 1 }

/-- Run a sequence of lifecycle events from a state. -/
def runUi (valid : Bool) (evs : List UiEvent) (s : FormMachineState) : FormMachineState :=
  evs.foldl (fun st ev => stepUi valid ev st) s

/-- Number of `authClient.emailPassword.signUp` invocations in a trace. -/
def countSignUpCalls (tr : List Effect) : Nat :=
  tr.countP (fun e => match e with | .signUpCall _ => true | _ => false)

/-- Number of navigation calls in a trace. -/
def countNavigations (tr : List Effect) : Nat :=
  tr.countP (fun e => match e with | .navigate _ => true | _ => false)

/-- Number of toast notifications in a trace. -/
def countToasts (tr : List Effect) : Nat :=
  tr.countP (fun e => match e with | .toast _ _ _ => true | _ => false)

/-- Number of analytics captures in a trace. -/
def countCaptures (tr : List Effect) : Nat :=
  tr.countP (fun e => match e with | .analyticsCapture _ _ _ _ => true | _ => false)

/-- A concrete instantiation of the external checkers, used by the example
inputs below: a string with an `'@'` and length at least three counts as an
email, and the password policy is a minimum length of eight. -/
def demoExternal : ExternalCheckers where
  emailValid := fun e => jsIncludes e "@" && decide (3 ≤ e.length)
  passwordPolicy := fun p => decide (8 ≤ p.length)
  emailValid_empty := by decide

/-- A concrete input that passes `validateSignup demoExternal`; its `name`
carries leading and trailing whitespace. -/
def exampleValidInput : SignupInput :=
  { name := " Ann ", email := "ann@example.com", password := "Sup3rSecret!",
    signature := none }

/-- A concrete input rejected by `validateSignup demoExternal` (its name is
whitespace only). -/
def exampleInvalidInput : SignupInput :=
  { name := "   ", email := "ann@example.com", password := "Sup3rSecret!",
    signature := none }

/-! ### Infrastructure lemmas -/

theorem jsIncludes_eq_true_iff {hay needle : String} :
    jsIncludes hay needle = true ↔ needle.data <:+: hay.data := by
  simp [jsIncludes]

theorem infix_of_prefix_of_suffix {α : Type} {l₁ l₂ l₃ : List α}
    (h₁ : l₁ <+: l₂) (h₂ : l₂ <:+ l₃) : l₁ <:+: l₃ := by
  obtain ⟨t, ht⟩ := h₁
  obtain ⟨u, hu⟩ := h₂
  exact ⟨u, t, by rw [← hu, ← ht, List.append_assoc]⟩

theorem jsTrim_data_within (s : String) : (jsTrim s).data <:+: s.data := by
  have h₁ : (jsTrim s).data <+: s.data.dropWhile Char.isWhitespace :=
    List.rdropWhile_prefix _ _
  have h₂ : s.data.dropWhile Char.isWhitespace <:+ s.data :=
    List.dropWhile_suffix _
  exact infix_of_prefix_of_suffix h₁ h₂

/-- A password containing the raw name also contains the trimmed name. -/
theorem jsIncludes_jsTrim {pw n : String} (h : jsIncludes pw n = true) :
    jsIncludes pw (jsTrim n) = true := by
  rw [jsIncludes_eq_true_iff] at h ⊢
  exact (jsTrim_data_within n).trans h

/-- Any string accepted by the email checker is non-empty. -/
theorem emailValid_length (ext : ExternalCheckers) {e : String}
    (h : ext.emailValid e = true) : 1 ≤ e.length := by
  by_cases he : e = ""
  · rw [he, ext.emailValid_empty] at h
    exact absurd h (by simp)
  · have hd : e.data ≠ [] := fun hd => he (String.ext hd)
    have hlen : 0 < e.data.length := List.length_pos.mpr hd
    exact hlen

theorem validateSignup_isOk_iff (ext : ExternalCheckers) (i : SignupInput) :
    (validateSignup ext i).isOk = true ↔ signupAllErrors ext i = [] := by
  unfold validateSignup
  split
  next h => simp [Except.isOk, Except.toBool, h]
  next h => simp [Except.isOk, Except.toBool, h]

theorem validateSignup_ok_eq (ext : ExternalCheckers) (i : SignupInput)
    (h : (validateSignup ext i).isOk = true) :
    validateSignup ext i = .ok { i with name := jsTrim i.name } := by
  have hall := (validateSignup_isOk_iff ext i).mp h
  unfold validateSignup
  simp [hall]

theorem validateSignup_error_of_ne (ext : ExternalCheckers) (i : SignupInput)
    (h : signupAllErrors ext i ≠ []) :
    validateSignup ext i = .error (signupAllErrors ext i) := by
  unfold validateSignup
  simp [h]

/-- When the refinement predicate fails, `validateSignup` fails and one of
its issues is scoped to the `password` field. -/
theorem failsOnPassword_of_refine_false (ext : ExternalCheckers) (i : SignupInput)
    (h : signupRefineOk i = false) :
    failsOnPassword (validateSignup ext i) = true := by
  have hall : signupAllErrors ext i =
      signupBaseErrors ext i ++ [⟨Field.password, crossFieldMessage⟩] := by
    simp [signupAllErrors, h]
  have hne : signupAllErrors ext i ≠ [] := by
    rw [hall]
    simp
  rw [validateSignup_error_of_ne ext i hne]
  simp [failsOnPassword, validationErrors, Except.isOk, Except.toBool, hall]

/-! ### Claim theorems -/

/-- **C1.** For every input whose name is non-empty after trimming, whose
email is accepted by the email checker, and whose password passes the
external strength policy, `ZSignUpFormSchema` succeeds if and only if the
password contains neither the (trimmed) name nor the local-part of the
email; when either containment holds, validation fails with exactly one
issue, scoped to the `password` field. -/
theorem c1_cross_field_characterisation (ext : ExternalCheckers) (i : SignupInput)
    (hname : 1 ≤ (jsTrim i.name).length)
    (hemail : ext.emailValid i.email = true)
    (hpass : ext.passwordPolicy i.password = true) :
    ((validateSignup ext i).isOk = true ↔
      (jsIncludes i.password (jsTrim i.name) = false ∧
        jsIncludes i.password (emailLocalPart i.email) = false)) ∧
    ((jsIncludes i.password (jsTrim i.name) = true ∨
        jsIncludes i.password (emailLocalPart i.email) = true) →
      validateSignup ext i = .error [⟨Field.password, crossFieldMessage⟩]) := by
  have hlen : 1 ≤ i.email.length := emailValid_length ext hemail
  have hbase : signupBaseErrors ext i = [] := by
    simp [signupBaseErrors, hname, hemail, hpass, hlen]
  constructor
  · rw [validateSignup_isOk_iff]
    simp only [signupAllErrors, hbase, List.nil_append, signupRefineOk]
    split
    next hc =>
      simp only [Bool.and_eq_true, Bool.not_eq_true'] at hc
      simp [hc.1, hc.2]
    next hc =>
      simp only [Bool.and_eq_true, Bool.not_eq_true'] at hc
      simp [hc]
  · intro hdisj
    have hro : signupRefineOk i = false := by
      rcases hdisj with h | h <;> simp [signupRefineOk, h]
    have hall : signupAllErrors ext i = [⟨Field.password, crossFieldMessage⟩] := by
      simp [signupAllErrors, hbase, hro]
    have hne : signupAllErrors ext i ≠ [] := by
      rw [hall]
      simp
    rw [validateSignup_error_of_ne ext i hne, hall]

/-- Witness for C1 at a concrete input. -/
theorem c1_witness :
    (1 ≤ (jsTrim exampleValidInput.name).length ∧
      demoExternal.emailValid exampleValidInput.email = true ∧
      demoExternal.passwordPolicy exampleValidInput.password = true) ∧
    ((validateSignup demoExternal exampleValidInput).isOk = true ↔
      (jsIncludes exampleValidInput.password (jsTrim exampleValidInput.name) = false ∧
        jsIncludes exampleValidInput.password (emailLocalPart exampleValidInput.email) = false)) :=
  ⟨⟨by decide, by decide, by decide⟩,
    (c1_cross_field_characterisation demoExternal exampleValidInput
      (by decide) (by decide) (by decide)).1⟩

/-- **C2.** For every input whose password contains the (raw, case-sensitive)
name as a substring, validation fails with an issue scoped to the `password`
field, regardless of the validity of the other fields; likewise when the
password contains the local-part of the email. (The base object parse never
aborts on string inputs, so the cross-field refinement always runs.) -/
theorem c2_containment_fails_on_password (ext : ExternalCheckers) (i : SignupInput) :
    (jsIncludes i.password i.name = true →
      failsOnPassword (validateSignup ext i) = true) ∧
    (jsIncludes i.password (emailLocalPart i.email) = true →
      failsOnPassword (validateSignup ext i) = true) := by
  constructor
  · intro h
    exact failsOnPassword_of_refine_false ext i
      (by simp [signupRefineOk, jsIncludes_jsTrim h])
  · intro h
    exact failsOnPassword_of_refine_false ext i (by simp [signupRefineOk, h])

/-- A concrete input whose password contains the name, while the email field
is syntactically invalid (other-field validity does not matter for C2). -/
def exampleNameInPassword : SignupInput :=
  { name := "Ann", email := "not-an-email", password := "Ann12345!", signature := none }

/-- Witness for C2 at a concrete input. -/
theorem c2_witness :
    jsIncludes exampleNameInPassword.password exampleNameInPassword.name = true ∧
    failsOnPassword (validateSignup demoExternal exampleNameInPassword) = true :=
  ⟨by decide,
    (c2_containment_fails_on_password demoExternal exampleNameInPassword).1 (by decide)⟩

/-- **C9.** The validator is a pure function of its input: it is
deterministic (two runs on the same input agree) and its result depends on
nothing but the four field values. -/
theorem c9_validator_deterministic (ext : ExternalCheckers) (i j : SignupInput)
    (h : i.name = j.name ∧ i.email = j.email ∧ i.password = j.password ∧
        i.signature = j.signature) :
    validateSignup ext i = validateSignup ext i ∧
    validateSignup ext i = validateSignup ext j := by
  obtain ⟨h1, h2, h3, h4⟩ := h
  have hij : i = j := by
    cases i
    cases j
    simp_all
  exact ⟨rfl, by rw [hij]⟩

/-- Witness for C9 at a concrete input. -/
theorem c9_witness :
    validateSignup demoExternal exampleValidInput =
      validateSignup demoExternal exampleValidInput :=
  (c9_validator_deterministic demoExternal exampleValidInput exampleValidInput
    ⟨rfl, rfl, rfl, rfl⟩).1

/-- **C3.** For every submit attempt on an input that fails validation, both
entry points (the native `<form onSubmit>` handler and the Complete button's
`handleSubmit` path) issue no `signUp` call — the call count is zero — and
instead trigger validation error display. -/
theorem c3_invalid_no_signup_call (ext : ExternalCheckers) (i : SignupInput)
    (result : SignUpResult) (nowISO : String) (utmSrc : Option String)
    (h : (validateSignup ext i).isOk = false) :
    nativeFormSubmit ext i result nowISO utmSrc = [Effect.displayValidationErrors] ∧
    completeButtonSubmit ext i result nowISO utmSrc = [Effect.displayValidationErrors] ∧
    countSignUpCalls (nativeFormSubmit ext i result nowISO utmSrc) = 0 ∧
    countSignUpCalls (completeButtonSubmit ext i result nowISO utmSrc) = 0 := by
  have hnative :
      nativeFormSubmit ext i result nowISO utmSrc = [Effect.displayValidationErrors] := by
    unfold nativeFormSubmit
    simp [h]
  have hbutton :
      completeButtonSubmit ext i result nowISO utmSrc = [Effect.displayValidationErrors] := by
    unfold completeButtonSubmit
    cases hv : validateSignup ext i with
    | ok p =>
      rw [hv] at h
      simp [Except.isOk, Except.toBool] at h
    | error es => rfl
  refine ⟨hnative, hbutton, ?_, ?_⟩
  · rw [hnative]
    rfl
  · rw [hbutton]
    rfl

/-- Witness for C3 at a concrete invalid input. -/
theorem c3_witness :
    (validateSignup demoExternal exampleInvalidInput).isOk = false ∧
    nativeFormSubmit demoExternal exampleInvalidInput SignUpResult.success
      "2024-01-01T00:00:00.000Z" none = [Effect.displayValidationErrors] :=
  ⟨by decide,
    (c3_invalid_no_signup_call demoExternal exampleInvalidInput SignUpResult.success
      "2024-01-01T00:00:00.000Z" none (by decide)).1⟩

/-- **C4.** A successful `signUp` call yields exactly one navigation (to the
unverified-account destination), one success toast, and one analytics
capture, in that order, and the capture carries the email, the
`toISOString` timestamp, and the `utm_source` value read from the page's
query parameters at load time. -/
theorem c4_success_effect_sequence (i : SignupInput) (nowISO : String)
    (searchParams : List (String × String)) :
    onFormSubmit i SignUpResult.success nowISO (utmFromQuery searchParams) =
      [Effect.signUpCall ⟨i.name, i.email, i.password, jsOrNull i.signature⟩,
       Effect.navigate "/unverified-account",
       Effect.toast registrationSuccessTitle registrationSuccessMessage false,
       Effect.analyticsCapture "App: User Sign Up" i.email nowISO
         (utmFromQuery searchParams)] ∧
    countNavigations (onFormSubmit i SignUpResult.success nowISO (utmFromQuery searchParams)) = 1 ∧
    countToasts (onFormSubmit i SignUpResult.success nowISO (utmFromQuery searchParams)) = 1 ∧
    countCaptures (onFormSubmit i SignUpResult.success nowISO (utmFromQuery searchParams)) = 1 := by
  refine ⟨rfl, ?_, ?_, ?_⟩ <;> rfl

/-- **C6.** A thrown error classified as `ALREADY_EXISTS` yields a
destructive toast whose description is exactly
`User with this email already exists. Please use a different email address.` -/
theorem c6_already_exists_toast (i : SignupInput) (nowISO : String)
    (utmSrc : Option String) :
    onFormSubmit i (SignUpResult.failure "ALREADY_EXISTS") nowISO utmSrc =
      [Effect.signUpCall ⟨i.name, i.email, i.password, jsOrNull i.signature⟩,
       Effect.toast errorToastTitle
         "User with this email already exists. Please use a different email address."
         true] ∧
    signupErrorMessages "ALREADY_EXISTS" = some alreadyExistsMessage := by
  constructor
  · rfl
  · rfl

/-- **C7.** A thrown error whose code lies outside the classified set falls
back to the generic invalid-request message: the error is absorbed into a
single destructive toast (the controller is a total function — nothing
propagates), and the toast text is never empty. -/
theorem c7_unclassified_fallback (i : SignupInput) (nowISO : String)
    (utmSrc : Option String) (code : String)
    (h1 : code ≠ "SIGNUP_DISABLED") (h2 : code ≠ "ALREADY_EXISTS")
    (h3 : code ≠ "INVALID_REQUEST") :
    onFormSubmit i (SignUpResult.failure code) nowISO utmSrc =
      [Effect.signUpCall ⟨i.name, i.email, i.password, jsOrNull i.signature⟩,
       Effect.toast errorToastTitle invalidRequestMessage true] ∧
    invalidRequestMessage ≠ "" ∧
    countToasts (onFormSubmit i (SignUpResult.failure code) nowISO utmSrc) = 1 := by
  have hlookup : signupErrorMessages code = none := by
    simp [signupErrorMessages, h1, h2, h3]
  refine ⟨?_, by decide, ?_⟩
  · simp [onFormSubmit, hlookup]
  · rfl

/-- Witness for C7 at a concrete unclassified code. -/
theorem c7_witness :
    (("SOME_UNKNOWN_FAILURE" : String) ≠ "SIGNUP_DISABLED" ∧
      ("SOME_UNKNOWN_FAILURE" : String) ≠ "ALREADY_EXISTS" ∧
      ("SOME_UNKNOWN_FAILURE" : String) ≠ "INVALID_REQUEST") ∧
    onFormSubmit exampleValidInput (SignUpResult.failure "SOME_UNKNOWN_FAILURE")
      "2024-01-01T00:00:00.000Z" none =
      [Effect.signUpCall ⟨" Ann ", "ann@example.com", "Sup3rSecret!", none⟩,
       Effect.toast errorToastTitle invalidRequestMessage true] :=
  ⟨⟨by decide, by decide, by decide⟩,
    (c7_unclassified_fallback exampleValidInput "2024-01-01T00:00:00.000Z" none
      "SOME_UNKNOWN_FAILURE" (by decide) (by decide) (by decide)).1⟩

/-- **C8.** Each SSO entry point issues exactly one identity-provider call;
every thrown error, whatever its payload, is caught and surfaced as the one
generic unknown-error destructive toast (no finer classification), and the
handlers never touch the validation schema: no trace contains a validation
display effect or a `signUp` call. -/
theorem c8_sso_generic_error_handling :
    (∀ e : String, onSignUpWithGoogleClick (Except.error e) =
        [Effect.googleSignInCall,
         Effect.toast unknownErrorTitle unknownErrorMessage true]) ∧
    (∀ e : String, onSignUpWithOIDCClick (Except.error e) =
        [Effect.oidcSignInCall,
         Effect.toast unknownErrorTitle unknownErrorMessage true]) ∧
    (∀ e : String, countToasts (onSignUpWithGoogleClick (Except.error e)) = 1 ∧
        countToasts (onSignUpWithOIDCClick (Except.error e)) = 1) ∧
    (∀ r : Except String Unit,
        Effect.displayValidationErrors ∉ onSignUpWithGoogleClick r ∧
        Effect.displayValidationErrors ∉ onSignUpWithOIDCClick r ∧
        countSignUpCalls (onSignUpWithGoogleClick r) = 0 ∧
        countSignUpCalls (onSignUpWithOIDCClick r) = 0) := by
  refine ⟨fun e => rfl, fun e => rfl, fun e => ⟨rfl, rfl⟩, fun r => ?_⟩
  cases r with
  | ok u =>
    exact ⟨by simp [onSignUpWithGoogleClick], by simp [onSignUpWithOIDCClick], rfl, rfl⟩
  | error e =>
    exact ⟨by simp [onSignUpWithGoogleClick], by simp [onSignUpWithOIDCClick], rfl, rfl⟩

/-- **C5 counterexample.** The claim that resubmission is disabled while an
attempt is outstanding (so no concurrent `signUp` invocation can occur)
fails on the native `<form onSubmit>` path: it bypasses `form.handleSubmit`,
so it neither sets nor checks `isSubmitting`. With a concrete valid input,
after one native submission one sign-up call is outstanding yet
`isSubmitting` is still `false`, and a second native submission issues a
second, concurrent sign-up call (two calls outstanding at once). -/
theorem c5_counterexample :
    (validateSignup demoExternal exampleValidInput).isOk = true ∧
    (runUi (validateSignup demoExternal exampleValidInput).isOk
        [UiEvent.nativeSubmit] initialFormState).outstandingNative = 1 ∧
    (runUi (validateSignup demoExternal exampleValidInput).isOk
        [UiEvent.nativeSubmit] initialFormState).isSubmitting = false ∧
    (runUi (validateSignup demoExternal exampleValidInput).isOk
        [UiEvent.nativeSubmit, UiEvent.nativeSubmit] initialFormState).totalSignUpCalls = 2 ∧
    (runUi (validateSignup demoExternal exampleValidInput).isOk
        [UiEvent.nativeSubmit, UiEvent.nativeSubmit] initialFormState).outstandingNative = 2 := by
  decide

/-- **C5 amended.** Each single submit attempt on a valid input invokes the
sign-up operation exactly once, with payload
`{name, email, password, signature-or-null}` (the native path sends the raw
field values, the Complete button path the resolver's parsed values), and
the Complete button path disables resubmission while its attempt is
outstanding: a click with `isSubmitting` set is a no-op. The native form
submission path has no such guard. -/
theorem c5_amended_single_call_per_attempt (ext : ExternalCheckers) (i : SignupInput)
    (result : SignUpResult) (nowISO : String) (utmSrc : Option String)
    (h : (validateSignup ext i).isOk = true) :
    countSignUpCalls (nativeFormSubmit ext i result nowISO utmSrc) = 1 ∧
    (nativeFormSubmit ext i result nowISO utmSrc).head? =
      some (Effect.signUpCall ⟨i.name, i.email, i.password, jsOrNull i.signature⟩) ∧
    countSignUpCalls (completeButtonSubmit ext i result nowISO utmSrc) = 1 ∧
    (completeButtonSubmit ext i result nowISO utmSrc).head? =
      some (Effect.signUpCall ⟨jsTrim i.name, i.email, i.password, jsOrNull i.signature⟩) ∧
    (∀ (s : FormMachineState) (valid : Bool), s.isSubmitting = true →
      stepUi valid UiEvent.completeClick s = s) := by
  have hok := validateSignup_ok_eq ext i h
  have hnative : nativeFormSubmit ext i result nowISO utmSrc =
      onFormSubmit i result nowISO utmSrc := by
    unfold nativeFormSubmit
    simp [h]
  have hbutton : completeButtonSubmit ext i result nowISO utmSrc =
      onFormSubmit { i with name := jsTrim i.name } result nowISO utmSrc := by
    unfold completeButtonSubmit
    rw [hok]
  refine ⟨?_, ?_, ?_, ?_, ?_⟩
  · rw [hnative]
    cases result <;> rfl
  · rw [hnative]
    cases result <;> rfl
  · rw [hbutton]
    cases result <;> rfl
  · rw [hbutton]
    cases result <;> rfl
  · intro s valid hs
    unfold stepUi
    simp [hs]

/-- Witness for the amended C5 at a concrete valid input. -/
theorem c5_witness :
    (validateSignup demoExternal exampleValidInput).isOk = true ∧
    countSignUpCalls (nativeFormSubmit demoExternal exampleValidInput
      SignUpResult.success "2024-01-01T00:00:00.000Z" none) = 1 :=
  ⟨by decide,
    (c5_amended_single_call_per_attempt demoExternal exampleValidInput
      SignUpResult.success "2024-01-01T00:00:00.000Z" none (by decide)).1⟩

/-- **C10 counterexample.** The claim that the backend payload always
receives the trimmed name fails on the native `<form onSubmit>` path, which
passes `form.getValues()` — the raw, untransformed field values — to
`onFormSubmit`. On a valid input whose name is `" Ann "` (trimmed form
`"Ann"`), the issued sign-up call carries the untrimmed `" Ann "`. -/
theorem c10_counterexample :
    (validateSignup demoExternal exampleValidInput).isOk = true ∧
    exampleValidInput.name = " Ann " ∧
    jsTrim exampleValidInput.name = "Ann" ∧
    (nativeFormSubmit demoExternal exampleValidInput SignUpResult.success
        "2024-01-01T00:00:00.000Z" none).head? =
      some (Effect.signUpCall ⟨" Ann ", "ann@example.com", "Sup3rSecret!", none⟩) ∧
    (" Ann " : String) ≠ "Ann" := by
  decide

/-- **C10 amended.** The schema trims the name as a transformation, not only
a check: the validated output's name is the trimmed input name, and the
cross-field rule tests containment of the trimmed name (a valid password
contains no occurrence of it). The sign-up payload receives the trimmed
name when submission goes through the Complete button (`handleSubmit`
passes the resolver's parsed values); the native form-submit path passes
the raw values, so its payload carries the untrimmed name. -/
theorem c10_amended_trim_transform (ext : ExternalCheckers) (i : SignupInput)
    (result : SignUpResult) (nowISO : String) (utmSrc : Option String)
    (h : (validateSignup ext i).isOk = true) :
    validateSignup ext i = .ok { i with name := jsTrim i.name } ∧
    jsIncludes i.password (jsTrim i.name) = false ∧
    (completeButtonSubmit ext i result nowISO utmSrc).head? =
      some (Effect.signUpCall ⟨jsTrim i.name, i.email, i.password, jsOrNull i.signature⟩) ∧
    (nativeFormSubmit ext i result nowISO utmSrc).head? =
      some (Effect.signUpCall ⟨i.name, i.email, i.password, jsOrNull i.signature⟩) := by
  have hall := (validateSignup_isOk_iff ext i).mp h
  have hro : signupRefineOk i = true := by
    cases hx : signupRefineOk i
    · rw [signupAllErrors, hx] at hall
      simp at hall
    · rfl
  have hincl : jsIncludes i.password (jsTrim i.name) = false := by
    have hro' := hro
    simp only [signupRefineOk, Bool.and_eq_true, Bool.not_eq_true'] at hro'
    exact hro'.1
  have hok := validateSignup_ok_eq ext i h
  refine ⟨hok, hincl, ?_, ?_⟩
  · unfold completeButtonSubmit
    rw [hok]
    cases result <;> rfl
  · unfold nativeFormSubmit
    simp only [h, if_true]
    cases result <;> rfl

/-- Witness for the amended C10 at a concrete valid input. -/
theorem c10_witness :
    (validateSignup demoExternal exampleValidInput).isOk = true ∧
    validateSignup demoExternal exampleValidInput =
      .ok { exampleValidInput with name := jsTrim exampleValidInput.name } :=
  ⟨by decide,
    (c10_amended_trim_transform demoExternal exampleValidInput SignUpResult.success
      "2024-01-01T00:00:00.000Z" none (by decide)).1⟩

end Signup
